import Mathlib

/-!
Verification of the caching / fallback layer of the water-services MCP server.

The definitions below are a shallow embedding of `src/services/cache.ts`
(class `CacheService`), of the trend / staleness computations in
`src/tools/potomac-gage-depth.ts` and `src/tools/potomac-flow.ts`, and of
`USGSApiService.isDataStale`.  Conventions:

* instants are epoch milliseconds as `Nat` (every `Date.now()` inside one
  operation is passed in as a single explicit `now` argument);
* JS numbers used for readings / ages are modelled as `ℚ`;
* the Cloudflare `Cache` backend is a finite association list from key
  strings to stored entries; backend failures (the exceptions caught by the
  `try/catch` blocks in the source) are injected through a `CacheFaults`
  record, one flag per backend primitive (`match`, `put`, `delete`);
* a stored `Response` is modelled structurally: its `Cache-Control` header
  carries `max-age=<ttl>` (field `maxAge`) and its `X-Cached-At` header
  carries `toISOString(cachedAtMs)` (field `cachedAtMs`); the accessors in
  the embedding apply the source's string operations to that rendering
  (`extractMaxAge` reads the ttl back, `new Date(..).getTime()` reads the
  instant back, and `parseInt` on the ISO string reads its leading four
  digits, i.e. the calendar year).
-/

/-- JS `x || d` for an optional numeric option: `undefined` and `0` are falsy. -/
def jsOrNat (x : Option Nat) (d : Nat) : Nat :=
  match x with
  | none => d
  | some v => if v = 0 then d else v

/-- JS `!x` for an optional string: `undefined` and the empty string are falsy. -/
def jsStrFalsy : Option String → Bool
  | none => true
  | some s => s = ""

/-- JS `a || b` on two optional strings: an absent or empty first operand
falls through to the second. -/
def jsOrStr (a b : Option String) : Option String :=
  match a with
  | some s => if s = "" then b else some s
  | none => b

/-- Lookup in a JS `Record<string, string>` (exact key match). -/
def recLookup (hs : List (String × String)) (k : String) : Option String :=
  (hs.find? (fun p => p.1 = k)).map (fun p => p.2)

/-- Substring test on character lists (models `String.prototype.includes`). -/
def listContainsSub : List Char → List Char → Bool
  | [], pat => pat.isEmpty
  | c :: rest, pat => pat.isPrefixOf (c :: rest) || listContainsSub rest pat

/-- Substring test on strings (models `String.prototype.includes`). -/
def strContains (s pat : String) : Bool :=
  listContainsSub s.data pat.data

/-- First match of the regex `<pat>(\d+)` inside a string: scan for the
literal pattern followed by at least one digit and return the maximal digit
run (models `url.match(/sites=(\d+)/)` and `url.match(/parameterCd=(\d+)/)`). -/
def findParamDigits : List Char → List Char → Option String
  | [], _ => none
  | c :: rest, pat =>
    if pat.isPrefixOf (c :: rest) then
      let ds := ((c :: rest).drop pat.length).takeWhile (fun ch => ch.isDigit)
      if ds.isEmpty then findParamDigits rest pat else some (String.mk ds)
    else findParamDigits rest pat

/-- `url.match(/<pat>(\d+)/)`, returning the captured digits of the first match. -/
def extractParamDigits (url pat : String) : Option String :=
  findParamDigits url.data pat.data

/-! ### Civil calendar arithmetic

`Date.prototype.toISOString` renders an epoch instant in the proleptic
Gregorian calendar (UTC).  `civilFromDays` converts a day count since
1970-01-01 into `(year, month, day)` (Howard Hinnant's `civil_from_days`
algorithm, restricted to non-negative day counts, i.e. instants from 1970
on, which is all `Date.now()` can produce). -/

def civilFromDays (z0 : Nat) : Nat × Nat × Nat :=
  let z := z0 + 719468
  let era := z / 146097
  let doe := z % 146097
  let yoe := (doe - doe / 1460 + doe / 36524 - doe / 146096) / 365
  let y := yoe + era * 400
  let doy := doe - (365 * yoe + yoe / 4 - yoe / 100)
  let mp := (5 * doy + 2) / 153
  let d := doy - (153 * mp + 2) / 5 + 1
  let m := if mp < 10 then mp + 3 else mp - 9
  (if m ≤ 2 then y + 1 else y, m, d)

/-- Calendar year of an epoch-millisecond instant: what `parseInt` returns
when applied to the instant's `toISOString` rendering (the string starts
with the zero-padded four-digit year, and `parseInt` stops at the first
hyphen). -/
def yearOf (ms : Nat) : Nat :=
  (civilFromDays (ms / 86400000)).1

/-- Decimal digit character. -/
def dig (n : Nat) : Char := Char.ofNat (48 + n)

/-- `toISOString(ms).slice(0, 16).replace(/[-:]/g, '')`: the minute-resolution
timestamp `YYYYMMDDTHHMM` (the `T` is neither a hyphen nor a colon, so the
replace leaves it in place). -/
def isoMinuteChars (ms : Nat) : List Char :=
  let totalMin := ms / 60000
  let day := totalMin / 1440
  let minOfDay := totalMin % 1440
  let c := civilFromDays day
  let y := c.1
  let mo := c.2.1
  let d := c.2.2
  let h := minOfDay / 60
  let mi := minOfDay % 60
  [dig (y / 1000), dig (y / 100 % 10), dig (y / 10 % 10), dig (y % 10),
   dig (mo / 10), dig (mo % 10), dig (d / 10), dig (d % 10), 'T',
   dig (h / 10), dig (h % 10), dig (mi / 10), dig (mi % 10)]

/-! ### `CacheService.hashString` -/

/-- Truncation to a signed 32-bit integer (JS `ToInt32`, the effect of the
`<< 5` shift and of `hash & hash` in the source). -/
def toInt32 (n : Int) : Int :=
  let m := n % 4294967296
  if 2147483648 ≤ m then m - 4294967296 else m

/-- One iteration of the rolling hash:
`hash = ((hash << 5) - hash) + charCode; hash = hash & hash`. -/
def hashStep (h : Int) (c : Char) : Int :=
  toInt32 (toInt32 (h * 32) - h + c.toNat)

/-- Base-36 digit characters `0-9a-z` (as produced by `Number.prototype.toString(36)`). -/
def b36digit (n : Nat) : Char :=
  if n < 10 then Char.ofNat (48 + n) else Char.ofNat (87 + n)

/-- Base-36 rendering helper; the fuel argument bounds the recursion depth. -/
def base36Aux : Nat → Nat → List Char
  | 0, _ => []
  | fuel + 1, n => if n = 0 then [] else base36Aux fuel (n / 36) ++ [b36digit (n % 36)]

/-- `Math.abs(hash).toString(36)`. -/
def base36 (n : Nat) : String :=
  if n = 0 then "0" else String.mk (base36Aux n n)

/-- `CacheService.hashString`: 32-bit rolling hash of the string, absolute
value rendered base 36 and truncated to 8 characters. -/
def CacheService.hashString (s : String) : String :=
  String.mk ((base36 (s.data.foldl hashStep 0).natAbs).data.take 8)

/-! ### Data model of the cache layer -/

/-- The `fallbackStrategy` union `'ignore' | 'stale' | 'emergency' | 'throw'`. -/
inductive FallbackStrategy where
  | ignore | stale | emergency | throwStrategy
deriving DecidableEq

/-- `CacheOptions` (the fields the cache layer reads; `enableLogging` only
toggles console output and is omitted). -/
structure CacheOptions where
  ttl : Option Nat := none
  keySuffix : Option String := none
  toolType : Option String := none
  dataType : Option String := none
  timeWindow : Option ℚ := none
  forceRefresh : Bool := false
  requestHeaders : Option (List (String × String)) := none
  fallbackStrategy : Option FallbackStrategy := none
  maxStaleAge : Option Nat := none
deriving DecidableEq

/-- The `source` tag of `CacheFallbackResult`:
`'cache' | 'fresh' | 'stale' | 'emergency'`. -/
inductive CacheSource where
  | cache | fresh | stale | emergency
deriving DecidableEq

/-- `CacheFallbackResult<T>` (the free-text `fallbackReason` diagnostic is
omitted). -/
structure CacheFallbackResult (α : Type) where
  data : α
  source : CacheSource
  cacheAge : Option ℚ := none
deriving DecidableEq

/-- `CacheMetrics`. -/
structure CacheMetrics where
  hits : Nat := 0
  misses : Nat := 0
  errors : Nat := 0
  bypasses : Nat := 0
  invalidations : Nat := 0
  staleEntries : Nat := 0
  fallbackHits : Nat := 0
  emergencyFallbacks : Nat := 0
  cacheFailures : Nat := 0
deriving DecidableEq

/-- Log entry actions. -/
inductive CacheAction where
  | HIT | MISS | SET | DELETE | BYPASS | STALE | ERROR | INVALIDATE
  | FALLBACK | EMERGENCY | CACHE_FAILURE
deriving DecidableEq

/-- A structured log entry (timestamp / tool fields omitted; the action and
key are what the claims inspect). -/
structure CacheLogEntry where
  action : CacheAction
  cacheKey : String
deriving DecidableEq

/-- A stored `Response`: payload plus the freshness headers written by
`createCacheResponse` (`Cache-Control: public, max-age=<maxAge>, ...` and
`X-Cached-At: toISOString(cachedAtMs)`). -/
structure CachedEntry (α : Type) where
  data : α
  cachedAtMs : Nat
  maxAge : Nat
deriving DecidableEq

/-- The mutable state of one `CacheService` instance together with the
platform cache contents. -/
structure CacheState (α : Type) where
  store : List (String × CachedEntry α) := []
  metrics : CacheMetrics := {}
  log : List CacheLogEntry := []
deriving DecidableEq

/-- Fault injection for the platform cache backend: each flag makes the
corresponding `caches.default` primitive throw (the exception the source
catches). -/
structure CacheFaults where
  matchFails : Bool := false
  putFails : Bool := false
  deleteFails : Bool := false
deriving DecidableEq

def noFaults : CacheFaults := {}

/-! ### TTL policy (`TTL_CONFIG`, `TIME_WINDOWS`, `getTtlForType`,
`getTimeWindowForType`, `validateTtl`) -/

def TTL_CONFIG.CURRENT_WATER_LEVEL : Nat := 840
def TTL_CONFIG.CURRENT_FLOW_RATE : Nat := 840
def TTL_CONFIG.CURRENT_COMBINED : Nat := 840
def TTL_CONFIG.HISTORICAL_WATER_LEVEL : Nat := 1800
def TTL_CONFIG.HISTORICAL_FLOW_RATE : Nat := 1800
def TTL_CONFIG.DEFAULT : Nat := 300
def TTL_CONFIG.MINIMUM : Nat := 60
def TTL_CONFIG.MAXIMUM : Nat := 7200

def TIME_WINDOWS.CURRENT_DATA : Nat := 14
def TIME_WINDOWS.HISTORICAL_DATA : Nat := 30
def TIME_WINDOWS.DEFAULT : Nat := 5

/-- `CacheService.getTtlForType` (the unused `key` template-string local of
the source is omitted; a missing or empty tool/data type is falsy in the
source's `!toolType || !dataType` guard). -/
def CacheService.getTtlForType (toolType dataType : Option String) : Nat :=
  if jsStrFalsy toolType || jsStrFalsy dataType then TTL_CONFIG.DEFAULT
  else if dataType = some "current" then
    if toolType = some "water-level" then TTL_CONFIG.CURRENT_WATER_LEVEL
    else if toolType = some "flow-rate" then TTL_CONFIG.CURRENT_FLOW_RATE
    else if toolType = some "combined-conditions" then TTL_CONFIG.CURRENT_COMBINED
    else TTL_CONFIG.DEFAULT
  else if dataType = some "historical" then
    if toolType = some "water-level" then TTL_CONFIG.HISTORICAL_WATER_LEVEL
    else if toolType = some "flow-rate" then TTL_CONFIG.HISTORICAL_FLOW_RATE
    else TTL_CONFIG.HISTORICAL_WATER_LEVEL
  else TTL_CONFIG.DEFAULT

/-- `CacheService.getTimeWindowForType`. -/
def CacheService.getTimeWindowForType (dataType : Option String) : Nat :=
  if dataType = some "current" then TIME_WINDOWS.CURRENT_DATA
  else if dataType = some "historical" then TIME_WINDOWS.HISTORICAL_DATA
  else TIME_WINDOWS.DEFAULT

/-- `CacheService.validateTtl`: clamp into `[MINIMUM, MAXIMUM]`. -/
def CacheService.validateTtl (ttl : Int) : Int :=
  max (TTL_CONFIG.MINIMUM : Int) (min (TTL_CONFIG.MAXIMUM : Int) ttl)

/-! ### Cache key generation -/

/-- `CacheService.generateTimeBucket`: align `now` to the start of its
`windowMinutes`-wide bucket and render that instant to the minute
(`toISOString().slice(0, 16).replace(/[-:]/g, '')`).  `new Date(x)`
truncates a fractional millisecond count toward zero, hence the inner
floor. -/
def CacheService.generateTimeBucket (windowMinutes : ℚ) (nowMs : Nat) : String :=
  let bucketSize : ℚ := windowMinutes * 60 * 1000
  let bucketStart : ℚ := (Rat.floor ((nowMs : ℚ) / bucketSize) : ℚ) * bucketSize
  String.mk (isoMinuteChars (Rat.floor bucketStart).toNat)

/-- `CacheService.generateCacheKey`:
`{prefix}:{tool-type}:{data-type}:{time-bucket}:{url-hash}[:{suffix}]`,
with `generic` / `unknown` defaults, a default 5-minute bucket when
`timeWindow` is absent or not positive, and the suffix appended only when
truthy. -/
def CacheService.generateCacheKey (nowMs : Nat) (url : String) (opts : CacheOptions) : String :=
  let toolPart := match opts.toolType with
    | some t => if t = "" then "generic" else t
    | none => "generic"
  let dataPart := match opts.dataType with
    | some t => if t = "" then "unknown" else t
    | none => "unknown"
  let bucket := match opts.timeWindow with
    | some w => if 0 < w then CacheService.generateTimeBucket w nowMs
                else CacheService.generateTimeBucket 5 nowMs
    | none => CacheService.generateTimeBucket 5 nowMs
  let sfx := match opts.keySuffix with
    | some s => if s = "" then "" else ":" ++ s
    | none => ""
  "water-services" ++ ":" ++ toolPart ++ ":" ++ dataPart ++ ":" ++ bucket
    ++ ":" ++ CacheService.hashString url ++ sfx

/-! ### Refresh headers and bypass -/

/-- The `getHeader` closure of `shouldRefreshFromHeaders` for a plain
`Record<string, string>` (the shape the tools pass, produced by
`extractCacheHeaders`): `headers[name] || headers[name.toLowerCase()] || null`. -/
def getHeader (hs : List (String × String)) (name : String) : Option String :=
  jsOrStr (recLookup hs name) (recLookup hs name.toLower)

/-- `CacheService.shouldRefreshFromHeaders`. -/
def CacheService.shouldRefreshFromHeaders (headers : Option (List (String × String))) : Bool :=
  match headers with
  | none => false
  | some hs =>
    let cc := getHeader hs "cache-control"
    let pragma := getHeader hs "pragma"
    let refresh := getHeader hs "x-refresh-cache"
    let force := getHeader hs "x-force-refresh"
    (match cc with
     | some v =>
       strContains v.toLower "no-cache" || strContains v.toLower "no-store" ||
         strContains v.toLower "max-age=0"
     | none => false) ||
    (match pragma with
     | some v => v.toLower = "no-cache"
     | none => false) ||
    (match refresh with
     | some v => v.toLower = "true" || v.toLower = "1" || v.toLower = "yes"
     | none => false) ||
    (match force with
     | some v => v.toLower = "true" || v.toLower = "1" || v.toLower = "yes"
     | none => false)

/-- `CacheService.shouldBypassCache`. -/
def CacheService.shouldBypassCache (opts : CacheOptions) : Bool :=
  opts.forceRefresh || CacheService.shouldRefreshFromHeaders opts.requestHeaders

/-! ### Store, metrics and log plumbing -/

def storeGet {α : Type} (s : List (String × CachedEntry α)) (k : String) :
    Option (CachedEntry α) :=
  (s.find? (fun p => p.1 = k)).map (fun p => p.2)

def storeRemove {α : Type} (s : List (String × CachedEntry α)) (k : String) :
    List (String × CachedEntry α) :=
  s.filter (fun p => p.1 ≠ k)

/-- `cache.put` overwrites unconditionally. -/
def storePut {α : Type} (s : List (String × CachedEntry α)) (k : String)
    (e : CachedEntry α) : List (String × CachedEntry α) :=
  storeRemove s k ++ [(k, e)]

/-- Append a log entry, keeping at most `maxLogEntries = 1000` entries
(drop-oldest). -/
def pushLog (l : List CacheLogEntry) (e : CacheLogEntry) : List CacheLogEntry :=
  let l₁ := l ++ [e]
  if 1000 < l₁.length then l₁.tail else l₁

/-- `logCacheActivity` (the structured-log side; detailed metrics and console
output are not modelled). -/
def logAct {α : Type} (st : CacheState α) (a : CacheAction) (k : String) : CacheState α :=
  { st with log := pushLog st.log ⟨a, k⟩ }

def bumpHits (m : CacheMetrics) : CacheMetrics := { m with hits := m.hits + 1 }
def bumpMisses (m : CacheMetrics) : CacheMetrics := { m with misses := m.misses + 1 }
def bumpErrors (m : CacheMetrics) : CacheMetrics := { m with errors := m.errors + 1 }
def bumpBypasses (m : CacheMetrics) : CacheMetrics := { m with bypasses := m.bypasses + 1 }
def bumpInvalidations (m : CacheMetrics) : CacheMetrics :=
  { m with invalidations := m.invalidations + 1 }
def bumpStaleEntries (m : CacheMetrics) : CacheMetrics :=
  { m with staleEntries := m.staleEntries + 1 }
def bumpFallbackHits (m : CacheMetrics) : CacheMetrics :=
  { m with fallbackHits := m.fallbackHits + 1 }
def bumpEmergencyFallbacks (m : CacheMetrics) : CacheMetrics :=
  { m with emergencyFallbacks := m.emergencyFallbacks + 1 }

/-! ### Cache Store Adapter operations -/

/-- `CacheService.delete`: backend delete of the derived key; the `catch`
branch turns any backend failure into `false` after counting an error and
logging it.  Returns the backend's deleted flag (whether the key existed). -/
def CacheService.delete {α : Type} (flt : CacheFaults) (st : CacheState α)
    (now : Nat) (url : String) (opts : CacheOptions) : Bool × CacheState α :=
  let key := CacheService.generateCacheKey now url opts
  if flt.deleteFails then
    (false, logAct { st with metrics := bumpErrors st.metrics } .ERROR key)
  else
    let existed := (storeGet st.store key).isSome
    (existed, logAct { st with store := storeRemove st.store key } .DELETE key)

/-- `CacheService.get`.  Bypass branch: count a bypass, and (the
`forceRefresh || shouldRefreshFromHeaders` condition, which is exactly
`shouldBypassCache` again) delete the entry and count an invalidation.
Hit branch: compare `now - new Date(X-Cached-At).getTime()` against
`extractMaxAge(Cache-Control) * 1000`; an expired entry is deleted, counted
as a stale eviction and reported as `null`.  The surrounding `try/catch`
turns a backend `match` failure into a counted, logged error and `null`. -/
def CacheService.get {α : Type} (flt : CacheFaults) (st : CacheState α)
    (now : Nat) (url : String) (opts : CacheOptions) : Option α × CacheState α :=
  let key := CacheService.generateCacheKey now url opts
  if CacheService.shouldBypassCache opts then
    let st₁ := logAct { st with metrics := bumpBypasses st.metrics } .BYPASS key
    if opts.forceRefresh || CacheService.shouldRefreshFromHeaders opts.requestHeaders then
      let (_, st₂) := CacheService.delete flt st₁ now url opts
      (none, logAct { st₂ with metrics := bumpInvalidations st₂.metrics } .INVALIDATE key)
    else
      (none, st₁)
  else if flt.matchFails then
    (none, logAct { st with metrics := bumpErrors st.metrics } .ERROR key)
  else
    match storeGet st.store key with
    | some entry =>
      if (entry.maxAge : Int) * 1000 < (now : Int) - (entry.cachedAtMs : Int) then
        let (_, st₁) := CacheService.delete flt st now url opts
        (none, logAct { st₁ with metrics := bumpStaleEntries st₁.metrics } .STALE key)
      else
        (some entry.data, logAct { st with metrics := bumpHits st.metrics } .HIT key)
    | none =>
      (none, logAct { st with metrics := bumpMisses st.metrics } .MISS key)

/-- `CacheService.set`: store the payload under the derived key with
freshness headers `max-age = options.ttl || TTL_CONFIG.DEFAULT` and
`X-Cached-At = toISOString(now)`; a backend `put` failure is caught,
counted, logged and reported as `false`. -/
def CacheService.set {α : Type} (flt : CacheFaults) (st : CacheState α)
    (now : Nat) (url : String) (data : α) (opts : CacheOptions) : Bool × CacheState α :=
  let key := CacheService.generateCacheKey now url opts
  if flt.putFails then
    (false, logAct { st with metrics := bumpErrors st.metrics } .ERROR key)
  else
    let entry : CachedEntry α := ⟨data, now, jsOrNat opts.ttl TTL_CONFIG.DEFAULT⟩
    (true, logAct { st with store := storePut st.store key entry } .SET key)

/-- `CacheService.getStaleData`: re-read the same key ignoring the normal
TTL check.  The age is computed as
`(Date.now() - parseInt(X-Cached-At)) / 1000`; since `X-Cached-At` holds an
ISO-8601 string, `parseInt` consumes its leading four digits — the calendar
year (`yearOf`) — not the epoch milliseconds.  Ages above
`maxStaleAge || 3600` are rejected.  The `catch` branch only logs (no error
counter). -/
def CacheService.getStaleData {α : Type} (flt : CacheFaults) (st : CacheState α)
    (now : Nat) (url : String) (opts : CacheOptions) :
    Option (α × ℚ) × CacheState α :=
  let key := CacheService.generateCacheKey now url opts
  if flt.matchFails then
    (none, logAct st .ERROR key)
  else
    match storeGet st.store key with
    | none => (none, st)
    | some entry =>
      let age : ℚ := ((now : ℚ) - (yearOf entry.cachedAtMs : ℚ)) / 1000
      let maxStaleAge : ℚ := (jsOrNat opts.maxStaleAge 3600 : ℚ)
      if maxStaleAge < age then
        (none, logAct st .STALE key)
      else
        (some (entry.data, age), logAct st .FALLBACK key)

/-- The three shapes of emergency payload built by
`createEmergencyFallback`. -/
inductive EmergencyShape where
  | waterLevel | flowRate | generic
deriving DecidableEq

/-- The synthetic emergency payload (station id, optional parameter code and
which of the three response shapes the source builds). -/
structure EmergencyPayload where
  stationId : String
  paramCode : Option String
  shape : EmergencyShape
deriving DecidableEq

/-- `CacheService.createEmergencyFallback`: synthesis succeeds only when the
url matches `/sites=(\d+)/`; the shape is chosen from the tool type or the
`parameterCd` parameter.  On success the emergency counter is bumped and an
`EMERGENCY` entry is logged. -/
def CacheService.createEmergencyFallback {α : Type} (st : CacheState α)
    (now : Nat) (url : String) (opts : CacheOptions) :
    Option EmergencyPayload × CacheState α :=
  match extractParamDigits url "sites=" with
  | none => (none, st)
  | some stationId =>
    let paramCode := extractParamDigits url "parameterCd="
    let shape :=
      if opts.toolType = some "water-level" ∨ paramCode = some "00065" then
        EmergencyShape.waterLevel
      else if opts.toolType = some "flow-rate" ∨ paramCode = some "00060" then
        EmergencyShape.flowRate
      else EmergencyShape.generic
    (some ⟨stationId, paramCode, shape⟩,
      logAct { st with metrics := bumpEmergencyFallbacks st.metrics } .EMERGENCY
        (CacheService.generateCacheKey now url opts))

/-- `CacheService.fetchWithFallback`.  `fetchResult` is the outcome of the
supplied `fetchFn` if it is invoked (it is invoked at most once); the third
component of the result records whether it was.  `emergencyCast` models the
source's unchecked `emergencyData as T` cast.  The `switch` falls through:
`stale` → `emergency` → `throw`; `ignore`/default retries stale with a
24-hour `maxStaleAge` before rethrowing.  The outer `catch` logs an `ERROR`
entry before propagating a fetch error. -/
def CacheService.fetchWithFallback {α : Type} (flt : CacheFaults)
    (emergencyCast : EmergencyPayload → α) (st : CacheState α) (now : Nat)
    (url : String) (fetchResult : Except String α) (opts : CacheOptions) :
    Except String (CacheFallbackResult α) × CacheState α × Bool :=
  let key := CacheService.generateCacheKey now url opts
  let cacheStep : Option α × CacheState α :=
    if CacheService.shouldBypassCache opts then (none, st)
    else CacheService.get flt st now url opts
  match cacheStep with
  | (some cached, st₁) =>
    (.ok { data := cached, source := .cache }, st₁, false)
  | (none, st₁) =>
    match fetchResult with
    | .ok freshData =>
      let (_, st₂) := CacheService.set flt st₁ now url freshData opts
      (.ok { data := freshData, source := .fresh }, st₂, true)
    | .error fetchError =>
      let throwStep : CacheState α →
          Except String (CacheFallbackResult α) × CacheState α × Bool := fun s =>
        (.error fetchError, logAct s .ERROR key, true)
      let emergencyStep : CacheState α →
          Except String (CacheFallbackResult α) × CacheState α × Bool := fun s =>
        match CacheService.createEmergencyFallback s now url opts with
        | (some p, s₁) =>
          (.ok { data := emergencyCast p, source := .emergency }, s₁, true)
        | (none, s₁) => throwStep s₁
      let staleStep : CacheState α →
          Except String (CacheFallbackResult α) × CacheState α × Bool := fun s =>
        match CacheService.getStaleData flt s now url opts with
        | (some (d, age), s₁) =>
          (.ok { data := d, source := .stale, cacheAge := some age },
            { s₁ with metrics := bumpFallbackHits s₁.metrics }, true)
        | (none, s₁) => emergencyStep s₁
      match opts.fallbackStrategy with
      | some .stale => staleStep st₁
      | some .emergency => emergencyStep st₁
      | some .throwStrategy => throwStep st₁
      | some .ignore =>
        match CacheService.getStaleData flt st₁ now url
            { opts with maxStaleAge := some 86400 } with
        | (some (d, age), s₁) =>
          (.ok { data := d, source := .stale, cacheAge := some age },
            { s₁ with metrics := bumpFallbackHits s₁.metrics }, true)
        | (none, s₁) => throwStep s₁
      | none => staleStep st₁

/-! ### Derived-metrics calculator (tool layer)

`getPotomacGageDepth` (src/tools/potomac-gage-depth.ts, lines 86-117) and
`getPotomacFlow` (src/tools/potomac-flow.ts, lines 117-148) inline the same
trend / staleness computation, differing only in the value field name
(`navd88_ft` vs `discharge_cfs`) and the stability threshold (0.01 ft vs
10 CFS).  Readings' values are parsed floats; the upstream parse layer
already drops `NaN` readings and the tools' defensive `!isNaN` re-filter is
the identity here. -/

/-- One element of a 90-minute series: a value with its timestamp
(`new Date(point.timestamp).getTime()`). -/
structure TrendPoint where
  value : ℚ
  timestampMs : Nat
deriving DecidableEq

inductive TrendDirection where
  | rising | falling | stable
deriving DecidableEq

structure TrendResult where
  direction : TrendDirection
  delta : ℚ
  baseline : Option ℚ
deriving DecidableEq

/-- The tools' trend computation: sort the (valid) 90-minute points by
timestamp ascending, take the oldest as baseline, set
`delta = current - baseline`, and classify: `stable` when `|delta| <
threshold`, else `rising` when `0 < delta`, else `falling`.  An empty
series yields `stable`, delta `0`, no baseline. -/
def computeTrend (threshold current : ℚ) (pts : List TrendPoint) : TrendResult :=
  match pts.mergeSort (fun a b => a.timestampMs ≤ b.timestampMs) with
  | [] => { direction := .stable, delta := 0, baseline := none }
  | oldest :: _ =>
    let delta := current - oldest.value
    if |delta| < threshold then
      { direction := .stable, delta := delta, baseline := some oldest.value }
    else if 0 < delta then
      { direction := .rising, delta := delta, baseline := some oldest.value }
    else
      { direction := .falling, delta := delta, baseline := some oldest.value }

/-- Water-level trend: threshold 0.01 ft
(src/tools/potomac-gage-depth.ts, line 103). -/
def waterLevelTrend (current : ℚ) (pts : List TrendPoint) : TrendResult :=
  computeTrend (1 / 100) current pts

/-- Flow-rate trend: threshold 10 CFS (src/tools/potomac-flow.ts, line 134). -/
def flowRateTrend (current : ℚ) (pts : List TrendPoint) : TrendResult :=
  computeTrend 10 current pts

/-- The tools' staleness flag:
`ageMinutes = (now - readingTime) / (1000 * 60); stale = ageMinutes > 30`. -/
def toolIsStale (nowMs tsMs : Nat) : Bool :=
  30 < ((nowMs : ℚ) - (tsMs : ℚ)) / (1000 * 60)

/-- `USGSApiService.isDataStale`:
`dataTime < new Date(now - 30 * 60 * 1000)`. -/
def USGSApiService.isDataStale (nowMs dataTimeMs : Nat) : Bool :=
  (dataTimeMs : Int) < (nowMs : Int) - 30 * 60 * 1000

/-! ### Calendar lemmas

The bucket component of a cache key is the minute-resolution ISO rendering
of the bucket start.  To settle claim C9 we need that rendering to be
injective on minute-aligned instants below year 10000, which reduces to
injectivity of `civilFromDays`.  `omega` cannot handle the nested divisions
of the Hinnant algorithm directly, so every quotient is exposed as an
opaque variable constrained by multiplication bounds, and the leap-year
core is settled once per year-of-era value. -/

/-- Named locals of `civilFromDays` (definitionally the algorithm's `let`s). -/
def cEra (z : Nat) : Nat := (z + 719468) / 146097

def cDoe (z : Nat) : Nat := (z + 719468) % 146097

def cA (z : Nat) : Nat := cDoe z / 1460

def cB (z : Nat) : Nat := cDoe z / 36524

def cC (z : Nat) : Nat := cDoe z / 146096

def cNum (z : Nat) : Nat := cDoe z - cA z + cB z - cC z

def cYoe (z : Nat) : Nat := cNum z / 365

def cP (z : Nat) : Nat := cYoe z / 4

def cQ (z : Nat) : Nat := cYoe z / 100

def cG (z : Nat) : Nat := 365 * cYoe z + cP z - cQ z

def cDoy (z : Nat) : Nat := cDoe z - cG z

def cMp (z : Nat) : Nat := (5 * cDoy z + 2) / 153

def cS (z : Nat) : Nat := (153 * cMp z + 2) / 5

/-- `civilFromDays` written with the named locals. -/
theorem civilFromDays_eq (z : Nat) :
    civilFromDays z =
      (if (if cMp z < 10 then cMp z + 3 else cMp z - 9) ≤ 2 then cYoe z + cEra z * 400 + 1
       else cYoe z + cEra z * 400,
       if cMp z < 10 then cMp z + 3 else cMp z - 9,
       cDoy z - cS z + 1) := rfl

set_option maxHeartbeats 8000000 in
/-- The leap-year core of the Hinnant algorithm, stated over opaque
quotient variables: the year-of-era extracted from a day-of-era is at most
399, and the day-of-year offset is within `[0, 366]`. -/
theorem era_year_spec (doe a b c num y p q g : Nat)
    (h : doe ≤ 146096)
    (ha1 : 1460 * a ≤ doe) (ha2 : doe < 1460 * a + 1460)
    (hb1 : 36524 * b ≤ doe) (hb2 : doe < 36524 * b + 36524)
    (hc1 : 146096 * c ≤ doe) (hc2 : doe < 146096 * c + 146096)
    (hnum : num + a + c = doe + b)
    (hy1 : 365 * y ≤ num) (hy2 : num < 365 * y + 365)
    (hp1 : 4 * p ≤ y) (hp2 : y < 4 * p + 4)
    (hq1 : 100 * q ≤ y) (hq2 : y < 100 * q + 100)
    (hg : g + q = 365 * y + p) :
    y ≤ 399 ∧ g ≤ doe ∧ doe ≤ g + 366 := by
  have hyb : y ≤ 401 := by omega
  interval_cases y <;> omega

theorem cDoe_le (z : Nat) : cDoe z ≤ 146096 := by
  unfold cDoe
  omega

theorem cA_bounds (z : Nat) : 1460 * cA z ≤ cDoe z ∧ cDoe z < 1460 * cA z + 1460 := by
  unfold cA
  generalize cDoe z = d
  constructor <;> omega

theorem cB_bounds (z : Nat) : 36524 * cB z ≤ cDoe z ∧ cDoe z < 36524 * cB z + 36524 := by
  unfold cB
  generalize cDoe z = d
  constructor <;> omega

theorem cC_bounds (z : Nat) : 146096 * cC z ≤ cDoe z ∧ cDoe z < 146096 * cC z + 146096 := by
  unfold cC
  generalize cDoe z = d
  constructor <;> omega

theorem cNum_eq (z : Nat) : cNum z + cA z + cC z = cDoe z + cB z := by
  unfold cNum
  have h1 := cA_bounds z
  have h2 := cB_bounds z
  have h3 := cC_bounds z
  generalize hA : cA z = a at *
  generalize hB : cB z = b at *
  generalize hC : cC z = c at *
  generalize cDoe z = d at *
  omega

theorem cYoe_bounds (z : Nat) : 365 * cYoe z ≤ cNum z ∧ cNum z < 365 * cYoe z + 365 := by
  unfold cYoe
  generalize cNum z = n
  constructor <;> omega

theorem cP_bounds (z : Nat) : 4 * cP z ≤ cYoe z ∧ cYoe z < 4 * cP z + 4 := by
  unfold cP
  generalize cYoe z = y
  constructor <;> omega

theorem cQ_bounds (z : Nat) : 100 * cQ z ≤ cYoe z ∧ cYoe z < 100 * cQ z + 100 := by
  unfold cQ
  generalize cYoe z = y
  constructor <;> omega

theorem cG_eq (z : Nat) : cG z + cQ z = 365 * cYoe z + cP z := by
  unfold cG
  have h1 := cP_bounds z
  have h2 := cQ_bounds z
  generalize hP : cP z = p at *
  generalize hQ : cQ z = q at *
  generalize cYoe z = y at *
  omega

/-- Facts (year-of-era ≤ 399, exact day-of-year decomposition, day-of-year
bound) for the named locals. -/
theorem cMain (z : Nat) :
    cYoe z ≤ 399 ∧ cG z ≤ cDoe z ∧ cDoe z ≤ cG z + 366 := by
  exact era_year_spec (cDoe z) (cA z) (cB z) (cC z) (cNum z) (cYoe z) (cP z) (cQ z) (cG z)
    (cDoe_le z) (cA_bounds z).1 (cA_bounds z).2 (cB_bounds z).1 (cB_bounds z).2
    (cC_bounds z).1 (cC_bounds z).2 (cNum_eq z) (cYoe_bounds z).1 (cYoe_bounds z).2
    (cP_bounds z).1 (cP_bounds z).2 (cQ_bounds z).1 (cQ_bounds z).2 (cG_eq z)

theorem cDoy_eq (z : Nat) : cG z + cDoy z = cDoe z ∧ cDoy z ≤ 366 := by
  unfold cDoy
  have h := cMain z
  omega

theorem cMp_bounds (z : Nat) :
    153 * cMp z ≤ 5 * cDoy z + 2 ∧ 5 * cDoy z + 2 < 153 * cMp z + 153 := by
  unfold cMp
  generalize cDoy z = d
  constructor <;> omega

theorem cS_bounds (z : Nat) : 5 * cS z ≤ 153 * cMp z + 2 ∧ 153 * cMp z + 2 < 5 * cS z + 5 := by
  unfold cS
  generalize cMp z = m
  constructor <;> omega

theorem cMp_le (z : Nat) : cMp z ≤ 11 ∧ cS z ≤ cDoy z := by
  have h1 := cDoy_eq z
  have h2 := cMp_bounds z
  have h3 := cS_bounds z
  generalize cMp z = m at *
  generalize cS z = s at *
  generalize cDoy z = d at *
  omega

theorem cEra_doe (z : Nat) : z + 719468 = cEra z * 146097 + cDoe z := by
  unfold cEra cDoe
  omega

/-- `civilFromDays` is injective: a calendar date determines its day
count. -/
theorem civilFromDays_inj (z₁ z₂ : Nat) (h : civilFromDays z₁ = civilFromDays z₂) :
    z₁ = z₂ := by
  rw [civilFromDays_eq z₁, civilFromDays_eq z₂, Prod.mk.injEq, Prod.mk.injEq] at h
  obtain ⟨hY, hm, hd⟩ := h
  have he₁ := cEra_doe z₁
  have he₂ := cEra_doe z₂
  have hmain₁ := cMain z₁
  have hmain₂ := cMain z₂
  have hdoy₁ := cDoy_eq z₁
  have hdoy₂ := cDoy_eq z₂
  have hp₁ := cP_bounds z₁
  have hp₂ := cP_bounds z₂
  have hq₁ := cQ_bounds z₁
  have hq₂ := cQ_bounds z₂
  have hgg₁ := cG_eq z₁
  have hgg₂ := cG_eq z₂
  have hmpb₁ := cMp_bounds z₁
  have hmpb₂ := cMp_bounds z₂
  have hsb₁ := cS_bounds z₁
  have hsb₂ := cS_bounds z₂
  have hle₁ := cMp_le z₁
  have hle₂ := cMp_le z₂
  split_ifs at hY hm <;> omega

/-- Component bounds of `civilFromDays` for day counts up to 9999-12-31
(day 2932896): four-digit year, two-digit month and day. -/
theorem civilFromDays_bounds (z : Nat) (hz : z ≤ 2932896) :
    (civilFromDays z).1 ≤ 9999 ∧ (civilFromDays z).2.1 ≤ 12 ∧ (civilFromDays z).2.2 ≤ 31 := by
  rw [civilFromDays_eq]
  have he := cEra_doe z
  have hd := cDoe_le z
  have hmain := cMain z
  have hdoy := cDoy_eq z
  have hp := cP_bounds z
  have hq := cQ_bounds z
  have hgg := cG_eq z
  have hmpb := cMp_bounds z
  have hsb := cS_bounds z
  have hle := cMp_le z
  dsimp only
  split_ifs <;> omega

/-- Decimal digit characters are distinct. -/
theorem dig_inj : ∀ a, a < 10 → ∀ b, b < 10 → dig a = dig b → a = b := by decide

/-- A number up to 9999 is determined by its four decimal digits. -/
theorem four_digits_inj (x y x1 x2 x3 y1 y2 y3 : Nat) (hx : x ≤ 9999) (hy : y ≤ 9999)
    (hx1 : x1 = x / 10) (hx2 : x2 = x1 / 10) (hx3 : x3 = x2 / 10)
    (hy1 : y1 = y / 10) (hy2 : y2 = y1 / 10) (hy3 : y3 = y2 / 10)
    (h1 : x3 = y3) (h2 : x2 % 10 = y2 % 10) (h3 : x1 % 10 = y1 % 10)
    (h4 : x % 10 = y % 10) : x = y := by
  omega

/-- A number up to 99 is determined by its two decimal digits. -/
theorem two_digits_inj (x y x1 y1 : Nat) (hx : x ≤ 99) (hy : y ≤ 99)
    (hx1 : x1 = x / 10) (hy1 : y1 = y / 10)
    (h1 : x1 = y1) (h2 : x % 10 = y % 10) : x = y := by
  omega

/-- The minute-resolution rendering is injective on minute-aligned
instants before year 10000. -/
theorem isoMinuteChars_inj (t₁ t₂ : Nat)
    (hb₁ : t₁ < 253402300800000) (hb₂ : t₂ < 253402300800000)
    (hdv₁ : 60000 ∣ t₁) (hdv₂ : 60000 ∣ t₂)
    (h : isoMinuteChars t₁ = isoMinuteChars t₂) : t₁ = t₂ := by
  simp only [isoMinuteChars, List.cons.injEq, and_true, true_and] at h
  obtain ⟨T₁, hT₁⟩ : ∃ T, t₁ / 60000 = T := ⟨_, rfl⟩
  obtain ⟨T₂, hT₂⟩ : ∃ T, t₂ / 60000 = T := ⟨_, rfl⟩
  rw [hT₁, hT₂] at h
  obtain ⟨M₁, hM₁⟩ : ∃ M, T₁ % 1440 = M := ⟨_, rfl⟩
  obtain ⟨M₂, hM₂⟩ : ∃ M, T₂ % 1440 = M := ⟨_, rfl⟩
  obtain ⟨D₁, hD₁⟩ : ∃ D, T₁ / 1440 = D := ⟨_, rfl⟩
  obtain ⟨D₂, hD₂⟩ : ∃ D, T₂ / 1440 = D := ⟨_, rfl⟩
  rw [hM₁, hM₂, hD₁, hD₂] at h
  have hDb₁ : D₁ ≤ 2932896 := by omega
  have hDb₂ : D₂ ≤ 2932896 := by omega
  have hMb₁ : M₁ ≤ 1439 := by omega
  have hMb₂ : M₂ ≤ 1439 := by omega
  have hcb₁ := civilFromDays_bounds D₁ hDb₁
  have hcb₂ := civilFromDays_bounds D₂ hDb₂
  obtain ⟨Y₁, hY₁⟩ : ∃ Y, (civilFromDays D₁).1 = Y := ⟨_, rfl⟩
  obtain ⟨Y₂, hY₂⟩ : ∃ Y, (civilFromDays D₂).1 = Y := ⟨_, rfl⟩
  obtain ⟨mo₁, hmo₁⟩ : ∃ m, (civilFromDays D₁).2.1 = m := ⟨_, rfl⟩
  obtain ⟨mo₂, hmo₂⟩ : ∃ m, (civilFromDays D₂).2.1 = m := ⟨_, rfl⟩
  obtain ⟨dd₁, hdd₁⟩ : ∃ d, (civilFromDays D₁).2.2 = d := ⟨_, rfl⟩
  obtain ⟨dd₂, hdd₂⟩ : ∃ d, (civilFromDays D₂).2.2 = d := ⟨_, rfl⟩
  rw [hY₁, hmo₁, hdd₁] at h hcb₁
  rw [hY₂, hmo₂, hdd₂] at h hcb₂
  obtain ⟨e1, e2, e3, e4, e5, e6, e7, e8, e9, e10, e11, e12⟩ := h
  have hYe : Y₁ = Y₂ := by
    refine four_digits_inj Y₁ Y₂ (Y₁ / 10) (Y₁ / 10 / 10) (Y₁ / 10 / 10 / 10)
      (Y₂ / 10) (Y₂ / 10 / 10) (Y₂ / 10 / 10 / 10) hcb₁.1 hcb₂.1 rfl rfl rfl rfl rfl rfl
      ?_ ?_ ?_ ?_
    · have := dig_inj _ (by omega) _ (by omega) e1
      simp only [Nat.div_div_eq_div_mul]
      norm_num
      omega
    · have := dig_inj _ (Nat.mod_lt _ (by norm_num)) _ (Nat.mod_lt _ (by norm_num)) e2
      simp only [Nat.div_div_eq_div_mul]
      norm_num
      omega
    · have := dig_inj _ (Nat.mod_lt _ (by norm_num)) _ (Nat.mod_lt _ (by norm_num)) e3
      omega
    · exact dig_inj _ (Nat.mod_lt _ (by norm_num)) _ (Nat.mod_lt _ (by norm_num)) e4
  have hmoe : mo₁ = mo₂ := by
    have u1 := dig_inj _ (by omega) _ (by omega) e5
    have u2 := dig_inj _ (Nat.mod_lt _ (by norm_num)) _ (Nat.mod_lt _ (by norm_num)) e6
    exact two_digits_inj mo₁ mo₂ (mo₁ / 10) (mo₂ / 10) (by omega) (by omega) rfl rfl u1 u2
  have hdde : dd₁ = dd₂ := by
    have u1 := dig_inj _ (by omega) _ (by omega) e7
    have u2 := dig_inj _ (Nat.mod_lt _ (by norm_num)) _ (Nat.mod_lt _ (by norm_num)) e8
    exact two_digits_inj dd₁ dd₂ (dd₁ / 10) (dd₂ / 10) (by omega) (by omega) rfl rfl u1 u2
  have hhe : M₁ / 60 = M₂ / 60 := by
    have u1 := dig_inj _ (by omega) _ (by omega) e9
    have u2 := dig_inj _ (Nat.mod_lt _ (by norm_num)) _ (Nat.mod_lt _ (by norm_num)) e10
    exact two_digits_inj (M₁ / 60) (M₂ / 60) (M₁ / 60 / 10) (M₂ / 60 / 10)
      (by omega) (by omega) rfl rfl u1 u2
  have hmie : M₁ % 60 = M₂ % 60 := by
    have u1 := dig_inj _ (by omega) _ (by omega) e11
    have u2 := dig_inj _ (Nat.mod_lt _ (by norm_num)) _ (Nat.mod_lt _ (by norm_num)) e12
    exact two_digits_inj (M₁ % 60) (M₂ % 60) (M₁ % 60 / 10) (M₂ % 60 / 10)
      (by omega) (by omega) rfl rfl u1 u2
  have hciv : civilFromDays D₁ = civilFromDays D₂ := by
    have p₁ : civilFromDays D₁ = (Y₁, mo₁, dd₁) := by
      rw [← hY₁, ← hmo₁, ← hdd₁]
    have p₂ : civilFromDays D₂ = (Y₂, mo₂, dd₂) := by
      rw [← hY₂, ← hmo₂, ← hdd₂]
    rw [p₁, p₂, hYe, hmoe, hdde]
  have hDe : D₁ = D₂ := civilFromDays_inj D₁ D₂ hciv
  have hTe : T₁ = T₂ := by omega
  omega

theorem ratFloor_eq (q : ℚ) : Rat.floor q = ⌊q⌋ := by
  rw [Rat.floor_def', Rat.floor_def]

theorem ratFloor_nat_div (n m : Nat) :
    Rat.floor ((n : ℚ) / (m : ℚ)) = ((n / m : ℕ) : ℤ) := by
  rw [ratFloor_eq]
  have h := Rat.floor_intCast_div_natCast (n : ℤ) m
  push_cast at h ⊢
  rw [h]

theorem ratFloor_natCast (n : Nat) : Rat.floor ((n : ℕ) : ℚ) = (n : ℤ) := by
  rw [ratFloor_eq]
  exact_mod_cast Int.floor_natCast n

theorem generateTimeBucket_nat (w n : Nat) (hw : 1 ≤ w) :
    CacheService.generateTimeBucket (w : ℚ) n =
      String.mk (isoMinuteChars (n / (w * 60000) * (w * 60000))) := by
  simp only [CacheService.generateTimeBucket]
  set a := n / (w * 60000) with ha
  have hbs : ((w : ℚ) * 60 * 1000) = ((w * 60000 : ℕ) : ℚ) := by push_cast; ring
  have h1 : Rat.floor ((n : ℚ) / ((w : ℚ) * 60 * 1000)) = (a : ℤ) := by
    rw [hbs]
    exact ratFloor_nat_div n (w * 60000)
  rw [h1]
  have h2 : (((a : ℤ) : ℚ) * ((w : ℚ) * 60 * 1000)) = ((a * (w * 60000) : ℕ) : ℚ) := by
    push_cast
    ring
  rw [h2, ratFloor_natCast, Int.toNat_natCast]

theorem data_mk (l : List Char) : (String.mk l).data = l := rfl

theorem isoMinuteChars_length (ms : Nat) : (isoMinuteChars ms).length = 13 := rfl

theorem mid_cancel {α : Type} (A B x y : List α) (hlen : x.length = y.length)
    (h : A ++ x ++ B = A ++ y ++ B) : x = y := by
  rw [List.append_assoc, List.append_assoc] at h
  exact (List.append_inj (List.append_cancel_left h) hlen).1

set_option maxHeartbeats 1000000 in
theorem generateCacheKey_window (opts : CacheOptions) (w : Nat) (hw : 1 ≤ w)
    (htw : opts.timeWindow = some (w : ℚ)) (url : String) (n₁ n₂ : Nat)
    (hb₁ : n₁ < 253402300800000) (hb₂ : n₂ < 253402300800000) :
    (n₁ / (w * 60000) = n₂ / (w * 60000) →
      CacheService.generateCacheKey n₁ url opts = CacheService.generateCacheKey n₂ url opts) ∧
    (n₁ / (w * 60000) ≠ n₂ / (w * 60000) →
      CacheService.generateCacheKey n₁ url opts ≠ CacheService.generateCacheKey n₂ url opts) := by
  have h0 : (0 : ℚ) < (w : ℚ) := by exact_mod_cast Nat.lt_of_lt_of_le Nat.zero_lt_one hw
  have hkey : ∀ n : Nat, CacheService.generateCacheKey n url opts =
      "water-services" ++ ":" ++
        (match opts.toolType with
         | some t => if t = "" then "generic" else t
         | none => "generic") ++ ":" ++
        (match opts.dataType with
         | some t => if t = "" then "unknown" else t
         | none => "unknown") ++ ":" ++
        String.mk (isoMinuteChars (n / (w * 60000) * (w * 60000))) ++ ":" ++
        CacheService.hashString url ++
        (match opts.keySuffix with
         | some s => if s = "" then "" else ":" ++ s
         | none => "") := by
    intro n
    simp only [CacheService.generateCacheKey, htw]
    rw [if_pos h0, generateTimeBucket_nat w n hw]
  constructor
  · intro he
    rw [hkey n₁, hkey n₂, he]
  · intro hne hkeq
    rw [hkey n₁, hkey n₂] at hkeq
    have hd := congrArg String.data hkeq
    simp only [String.data_append, List.append_assoc, data_mk] at hd
    have hd₂ := List.append_cancel_left (List.append_cancel_left (List.append_cancel_left
      (List.append_cancel_left (List.append_cancel_left (List.append_cancel_left hd)))))
    have hchars : isoMinuteChars (n₁ / (w * 60000) * (w * 60000)) =
        isoMinuteChars (n₂ / (w * 60000) * (w * 60000)) :=
      (List.append_inj hd₂ (by rw [isoMinuteChars_length, isoMinuteChars_length])).1
    have hstart := isoMinuteChars_inj _ _
      (Nat.lt_of_le_of_lt (Nat.div_mul_le_self n₁ (w * 60000)) hb₁)
      (Nat.lt_of_le_of_lt (Nat.div_mul_le_self n₂ (w * 60000)) hb₂)
      ⟨n₁ / (w * 60000) * w, by ring⟩ ⟨n₂ / (w * 60000) * w, by ring⟩ hchars
    exact hne (Nat.eq_of_mul_eq_mul_right (by omega) hstart)

/-! ### Support lemmas for the claim theorems -/

deriving instance DecidableEq for Except

theorem getLast_pushLog (l : List CacheLogEntry) (e : CacheLogEntry) :
    (pushLog l e).getLast? = some e := by
  simp only [pushLog]
  split
  next h =>
    match l, h with
    | [], h => simp at h
    | x :: xs, _ => simp [List.getLast?_concat]
  next => simp [List.getLast?_concat]

theorem storeGet_storeRemove {α : Type} (s : List (String × CachedEntry α)) (k : String) :
    storeGet (storeRemove s k) k = none := by
  unfold storeGet storeRemove
  induction s with
  | nil => simp
  | cons p rest ih =>
    by_cases hp : p.1 = k
    · simpa [hp] using ih
    · simpa [hp] using ih

/-- C2: TTL and bucket-width policy (amended).  The three recognized tool
categories paired with `current` get 840 s and a 14-minute bucket.  Every
nonempty tool category paired with `historical` — recognized or not — gets
1800 s and a 30-minute bucket (the source defaults unrecognized historical
tools to the water-level TTL).  An unrecognized tool category paired with
`current` gets 300 s but still a 14-minute bucket (the bucket width depends
only on the data category).  A missing tool or data category gets 300 s,
and any other data category gets a 5-minute bucket. -/
theorem C2_ttl_policy (t : String) (d : Option String) (ht : t ≠ "") :
    CacheService.getTtlForType (some "water-level") (some "current") = 840 ∧
    CacheService.getTtlForType (some "flow-rate") (some "current") = 840 ∧
    CacheService.getTtlForType (some "combined-conditions") (some "current") = 840 ∧
    CacheService.getTimeWindowForType (some "current") = 14 ∧
    CacheService.getTtlForType (some t) (some "historical") = 1800 ∧
    CacheService.getTimeWindowForType (some "historical") = 30 ∧
    (t ≠ "water-level" → t ≠ "flow-rate" → t ≠ "combined-conditions" →
      CacheService.getTtlForType (some t) (some "current") = 300) ∧
    CacheService.getTtlForType none d = 300 ∧
    CacheService.getTtlForType (some t) none = 300 ∧
    (d ≠ some "current" → d ≠ some "historical" → CacheService.getTimeWindowForType d = 5) := by
  refine ⟨by decide, by decide, by decide, by decide, ?_, by decide, ?_, ?_, ?_, ?_⟩
  · simp [CacheService.getTtlForType, jsStrFalsy, ht, TTL_CONFIG.HISTORICAL_WATER_LEVEL,
      TTL_CONFIG.HISTORICAL_FLOW_RATE]
  · intro h1 h2 h3
    simp [CacheService.getTtlForType, jsStrFalsy, ht, h1, h2, h3, TTL_CONFIG.DEFAULT]
  · simp [CacheService.getTtlForType, jsStrFalsy, TTL_CONFIG.DEFAULT]
  · simp [CacheService.getTtlForType, jsStrFalsy, TTL_CONFIG.DEFAULT]
  · intro h1 h2
    simp [CacheService.getTimeWindowForType, h1, h2, TIME_WINDOWS.DEFAULT]

/-- C2 counterexample: the claim as stated sends every unrecognized
combination to 300 s and a 5-minute bucket, but an unrecognized tool
category paired with `historical` yields 1800 s and a 30-minute bucket. -/
theorem C2_counterexample :
    CacheService.getTtlForType (some "generic") (some "historical") = 1800 ∧
    CacheService.getTimeWindowForType (some "historical") = 30 ∧
    ¬(CacheService.getTtlForType (some "generic") (some "historical") = 300 ∧
      CacheService.getTimeWindowForType (some "historical") = 5) := by
  decide

/-- Witness for C2 at concrete categories. -/
theorem C2_ttl_policy_witness :
    CacheService.getTtlForType (some "generic") (some "historical") = 1800 ∧
    CacheService.getTtlForType (some "generic") (some "current") = 300 ∧
    CacheService.getTtlForType none (some "current") = 300 ∧
    CacheService.getTimeWindowForType (some "other") = 5 := by
  have h := C2_ttl_policy "generic" (some "other") (by decide)
  exact ⟨h.2.2.2.2.1, h.2.2.2.2.2.2.1 (by decide) (by decide) (by decide),
    h.2.2.2.2.2.2.2.1, h.2.2.2.2.2.2.2.2.2 (by decide) (by decide)⟩

theorem toolIsStale_iff (now ts : Nat) :
    toolIsStale now ts = true ↔ (ts : Int) + 30 * 60 * 1000 < (now : Int) := by
  unfold toolIsStale
  rw [decide_eq_true_iff]
  rw [lt_div_iff₀ (by norm_num : (0 : ℚ) < 1000 * 60)]
  rw [show ((now : ℚ) - (ts : ℚ)) = (((now : ℤ) - (ts : ℤ) : ℤ) : ℚ) from by push_cast; ring]
  rw [show ((30 : ℚ) * (1000 * 60)) = ((30 * 60 * 1000 + (ts : ℤ) - (ts : ℤ) : ℤ) : ℚ) from by
    push_cast; ring]
  rw [Int.cast_lt]
  omega

theorem isDataStale_iff (now ts : Nat) :
    USGSApiService.isDataStale now ts = true ↔ (ts : Int) + 30 * 60 * 1000 < (now : Int) := by
  unfold USGSApiService.isDataStale
  rw [decide_eq_true_iff]
  omega

/-- C8: the tool staleness flag is true exactly when the reading is more
than 30 minutes (1 800 000 ms) old, with a strict comparison: a reading
exactly 30 minutes old is not stale, one 30 minutes and 1 second old is;
`USGSApiService.isDataStale` agrees with the tools' inline computation. -/
theorem C8_staleness_boundary (now ts : Nat) :
    (toolIsStale now ts = true ↔ (ts : Int) + 30 * 60 * 1000 < (now : Int)) ∧
    USGSApiService.isDataStale now ts = toolIsStale now ts ∧
    toolIsStale (ts + 30 * 60 * 1000) ts = false ∧
    toolIsStale (ts + 30 * 60 * 1000 + 1000) ts = true := by
  refine ⟨toolIsStale_iff now ts, ?_, ?_, ?_⟩
  · rw [Bool.eq_iff_iff, isDataStale_iff, toolIsStale_iff]
  · rw [Bool.eq_false_iff]
    intro hb
    have h := (toolIsStale_iff (ts + 30 * 60 * 1000) ts).mp hb
    push_cast at h
    omega
  · rw [toolIsStale_iff]
    push_cast
    omega


/-- C7: trend computation.  On a non-empty series the baseline is an
element with the earliest timestamp, the delta is `current - baseline`,
and the direction is `stable` when `|delta| < threshold`, `rising` when
`0 < delta`, `falling` otherwise; an empty series gives `stable`, delta 0
and no baseline.  The water-level tool instantiates the threshold at
0.01 ft and the flow-rate tool at 10 CFS. -/
theorem C7_trend_computation (threshold current : ℚ) (pts : List TrendPoint) :
    (pts = [] → computeTrend threshold current pts =
      { direction := .stable, delta := 0, baseline := none }) ∧
    (pts ≠ [] → ∃ b, b ∈ pts ∧ (∀ p ∈ pts, b.timestampMs ≤ p.timestampMs) ∧
      computeTrend threshold current pts =
        { direction :=
            if |current - b.value| < threshold then .stable
            else if 0 < current - b.value then .rising else .falling,
          delta := current - b.value,
          baseline := some b.value }) ∧
    waterLevelTrend current pts = computeTrend (1 / 100) current pts ∧
    flowRateTrend current pts = computeTrend 10 current pts := by
  refine ⟨?_, ?_, rfl, rfl⟩
  · rintro rfl
    simp [computeTrend, List.mergeSort_nil]
  · intro hne
    have hperm := List.mergeSort_perm pts
      (fun a b : TrendPoint => decide (a.timestampMs ≤ b.timestampMs))
    have hsorted : (pts.mergeSort
        (fun a b : TrendPoint => decide (a.timestampMs ≤ b.timestampMs))).Pairwise
        (fun a b : TrendPoint => decide (a.timestampMs ≤ b.timestampMs) = true) :=
      List.sorted_mergeSort
        (fun a b c hab hbc => by
          simp only [decide_eq_true_iff] at hab hbc ⊢
          omega)
        (fun a b => by
          simp only [Bool.or_eq_true, decide_eq_true_iff]
          omega)
        pts
    match hms : pts.mergeSort (fun a b : TrendPoint => decide (a.timestampMs ≤ b.timestampMs)) with
    | [] =>
      rw [hms] at hperm
      exact absurd hperm.symm.eq_nil hne
    | b :: rest =>
      rw [hms] at hperm hsorted
      rcases List.pairwise_cons.mp hsorted with ⟨hmin, _⟩
      refine ⟨b, ?_, ?_, ?_⟩
      · exact hperm.mem_iff.mp (List.mem_cons_self b rest)
      · intro p hp
        rcases List.mem_cons.mp (hperm.mem_iff.mpr hp) with heq | htail
        · subst heq
          exact Nat.le_refl _
        · have h := hmin p htail
          simpa [decide_eq_true_iff] using h
      · simp only [computeTrend, hms]
        split_ifs <;> rfl

/-- Witness for C7 at a concrete series: current 10, points (8 at t=5) and
(6 at t=3), flow threshold 10. -/
theorem C7_trend_computation_witness :
    computeTrend 10 10 ([] : List TrendPoint) =
      { direction := .stable, delta := 0, baseline := none } ∧
    ∃ b, b ∈ [TrendPoint.mk 8 5, TrendPoint.mk 6 3] ∧
      (∀ p ∈ [TrendPoint.mk 8 5, TrendPoint.mk 6 3], b.timestampMs ≤ p.timestampMs) ∧
      computeTrend 10 10 [TrendPoint.mk 8 5, TrendPoint.mk 6 3] =
        { direction :=
            if |(10 : ℚ) - b.value| < 10 then .stable
            else if 0 < (10 : ℚ) - b.value then .rising else .falling,
          delta := 10 - b.value,
          baseline := some b.value } :=
  ⟨(C7_trend_computation 10 10 []).1 rfl,
   (C7_trend_computation 10 10 [TrendPoint.mk 8 5, TrendPoint.mk 6 3]).2.1 (by simp)⟩

theorem storeGet_nil {α : Type} (k : String) : storeGet ([] : List (String × CachedEntry α)) k = none := rfl

/-- C10: emergency synthesis requires a `sites=<digits>` parameter in the
identity string; the identity strings the tools pass have none, so with an
empty cache and a failing fetch, `fetchWithFallback` propagates the fetch
error for every fallback strategy. -/
theorem C10_emergency_requires_sites {α : Type} (flt : CacheFaults) (ec : EmergencyPayload → α)
    (st : CacheState α) (now : Nat) (url : String) (e : String) (opts : CacheOptions)
    (hsites : extractParamDigits url "sites=" = none)
    (hbp : CacheService.shouldBypassCache opts = false)
    (hstore : st.store = []) (hm : flt.matchFails = false) :
    CacheService.createEmergencyFallback st now url opts = (none, st) ∧
    (CacheService.fetchWithFallback flt ec st now url (.error e) opts).1 = .error e ∧
    extractParamDigits "current-water-level" "sites=" = none ∧
    extractParamDigits "current-flow-rate" "sites=" = none ∧
    extractParamDigits "90-minute-water-level" "sites=" = none ∧
    extractParamDigits "combined-potomac-conditions" "sites=" = none := by
  refine ⟨?_, ?_, by decide, by decide, by decide, by decide⟩
  · simp only [CacheService.createEmergencyFallback, hsites]
  · rcases hsf : opts.fallbackStrategy with _ | sf
    · simp only [CacheService.fetchWithFallback, CacheService.get, CacheService.getStaleData,
        CacheService.createEmergencyFallback, logAct, hsf, hbp, hm, hstore, hsites,
        storeGet_nil, Bool.false_eq_true, if_false]
    · cases sf <;>
        simp only [CacheService.fetchWithFallback, CacheService.get, CacheService.getStaleData,
          CacheService.createEmergencyFallback, logAct, hsf, hbp, hm, hstore, hsites,
          storeGet_nil, Bool.false_eq_true, if_false]

/-- Witness for C10: with an empty cache and a failing fetch, the
`current-water-level` identity produces no emergency payload and the error
propagates. -/
theorem C10_emergency_requires_sites_witness :
    CacheService.createEmergencyFallback ({} : CacheState Nat) 0 "current-water-level" {} =
      (none, {}) ∧
    (CacheService.fetchWithFallback ⟨false, false, false⟩ (fun _ => (0 : Nat)) {} 0
      "current-water-level" (.error "down") {}).1 = .error "down" := by
  have h := C10_emergency_requires_sites (⟨false, false, false⟩ : CacheFaults)
    (fun _ => (0 : Nat)) ({} : CacheState Nat) 0 "current-water-level" "down" {}
    (by decide) (by decide) rfl rfl
  exact ⟨h.1, h.2.1⟩

/-- C4: when the cache is not bypassed and the cache read yields a payload,
`fetchWithFallback` returns it tagged `source: cache` immediately, with the
supplied fetch function never invoked (third component `false`), whatever
the fetch outcome would have been. -/
theorem C4_cached_fast_path {α : Type} (flt : CacheFaults) (ec : EmergencyPayload → α)
    (st st₁ : CacheState α) (now : Nat) (url : String) (fr : Except String α)
    (opts : CacheOptions) (v : α)
    (hbp : CacheService.shouldBypassCache opts = false)
    (hget : CacheService.get flt st now url opts = (some v, st₁)) :
    CacheService.fetchWithFallback flt ec st now url fr opts =
      (.ok { data := v, source := .cache }, st₁, false) := by
  simp only [CacheService.fetchWithFallback, hbp, Bool.false_eq_true, if_false, hget]

def c4opts : CacheOptions := {}

def c4st : CacheState Nat :=
  { store := [(CacheService.generateCacheKey 0 "u" c4opts, ⟨7, 0, 300⟩)] }

/-- Witness for C4 at a concrete fresh entry. -/
theorem C4_cached_fast_path_witness :
    CacheService.fetchWithFallback noFaults (fun _ => (0 : Nat)) c4st 0 "u"
      (.error "x") c4opts =
      (.ok { data := 7, source := .cache },
       (CacheService.get noFaults c4st 0 "u" c4opts).2, false) := by
  apply C4_cached_fast_path
  · decide
  · have h1 : (CacheService.get noFaults c4st 0 "u" c4opts).1 = some 7 := by
      with_unfolding_all decide
    rw [← h1]

/-- C6: the Cache Store Adapter never raises.  Under a backend failure,
`get` returns `null` (a miss to its caller), and `set` / `delete` return
`false`; each counts one error and logs an `ERROR` entry. -/
theorem C6_cache_errors_swallowed {α : Type} (flt : CacheFaults) (st : CacheState α)
    (now : Nat) (url : String) (data : α) (opts : CacheOptions)
    (hm : flt.matchFails = true) (hp : flt.putFails = true) (hd : flt.deleteFails = true)
    (hbp : CacheService.shouldBypassCache opts = false) :
    (CacheService.get flt st now url opts).1 = none ∧
    ((CacheService.get flt st now url opts).2).metrics.errors = st.metrics.errors + 1 ∧
    ((CacheService.get flt st now url opts).2).log.getLast? =
      some ⟨.ERROR, CacheService.generateCacheKey now url opts⟩ ∧
    (CacheService.set flt st now url data opts).1 = false ∧
    ((CacheService.set flt st now url data opts).2).metrics.errors = st.metrics.errors + 1 ∧
    ((CacheService.set flt st now url data opts).2).log.getLast? =
      some ⟨.ERROR, CacheService.generateCacheKey now url opts⟩ ∧
    (CacheService.delete flt st now url opts).1 = false ∧
    ((CacheService.delete flt st now url opts).2).metrics.errors = st.metrics.errors + 1 ∧
    ((CacheService.delete flt st now url opts).2).log.getLast? =
      some ⟨.ERROR, CacheService.generateCacheKey now url opts⟩ := by
  simp only [CacheService.get, CacheService.set, CacheService.delete, hm, hp, hd, hbp,
    Bool.false_eq_true, if_false, if_true, logAct, bumpErrors, getLast_pushLog]
  simp

/-- Witness for C6 with all three backend faults at a concrete state. -/
theorem C6_cache_errors_swallowed_witness :
    (CacheService.get ⟨true, true, true⟩ ({} : CacheState Nat) 0 "u" {}).1 = none ∧
    ((CacheService.get ⟨true, true, true⟩ ({} : CacheState Nat) 0 "u" {}).2).metrics.errors = 1 ∧
    (CacheService.set ⟨true, true, true⟩ ({} : CacheState Nat) 0 "u" 5 {}).1 = false ∧
    (CacheService.delete ⟨true, true, true⟩ ({} : CacheState Nat) 0 "u" {}).1 = false := by
  have h := C6_cache_errors_swallowed (⟨true, true, true⟩ : CacheFaults) ({} : CacheState Nat)
    0 "u" (5 : Nat) {} rfl rfl rfl (by decide)
  exact ⟨h.1, h.2.1, h.2.2.2.1, h.2.2.2.2.2.2.1⟩

/-- C5: a `get` on an entry older than its stored ttl deletes the entry,
counts a stale eviction (not a hit), logs a `STALE` entry last, and
returns `null`. -/
theorem C5_expired_entry_evicted {α : Type} (flt : CacheFaults) (st : CacheState α)
    (now : Nat) (url : String) (opts : CacheOptions) (entry : CachedEntry α)
    (hbp : CacheService.shouldBypassCache opts = false)
    (hm : flt.matchFails = false) (hd : flt.deleteFails = false)
    (hent : storeGet st.store (CacheService.generateCacheKey now url opts) = some entry)
    (hexp : (entry.maxAge : Int) * 1000 < (now : Int) - (entry.cachedAtMs : Int)) :
    (CacheService.get flt st now url opts).1 = none ∧
    storeGet ((CacheService.get flt st now url opts).2).store
      (CacheService.generateCacheKey now url opts) = none ∧
    ((CacheService.get flt st now url opts).2).metrics.staleEntries =
      st.metrics.staleEntries + 1 ∧
    ((CacheService.get flt st now url opts).2).metrics.hits = st.metrics.hits ∧
    ((CacheService.get flt st now url opts).2).log.getLast? =
      some ⟨.STALE, CacheService.generateCacheKey now url opts⟩ := by
  simp only [CacheService.get, CacheService.delete, hbp, hm, hd, hent, Bool.false_eq_true,
    if_false, if_pos hexp, logAct, bumpStaleEntries, getLast_pushLog, storeGet_storeRemove]
  simp

def c5opts : CacheOptions := {}

def c5st : CacheState Nat :=
  { store := [(CacheService.generateCacheKey 301000 "u" c5opts, ⟨7, 0, 300⟩)] }

/-- Witness for C5: an entry with ttl 300 s read 301 s after it was cached. -/
theorem C5_expired_entry_evicted_witness :
    (CacheService.get noFaults c5st 301000 "u" c5opts).1 = none ∧
    storeGet ((CacheService.get noFaults c5st 301000 "u" c5opts).2).store
      (CacheService.generateCacheKey 301000 "u" c5opts) = none ∧
    ((CacheService.get noFaults c5st 301000 "u" c5opts).2).metrics.staleEntries = 1 ∧
    ((CacheService.get noFaults c5st 301000 "u" c5opts).2).metrics.hits = 0 := by
  have h := C5_expired_entry_evicted noFaults c5st 301000 "u" c5opts ⟨7, 0, 300⟩
    (by decide) rfl rfl (by with_unfolding_all decide) (by decide)
  refine ⟨h.1, h.2.1, ?_, ?_⟩
  · rw [h.2.2.1]
    rfl
  · rw [h.2.2.2.1]
    rfl

theorem getStaleData_preserves {α : Type} (flt : CacheFaults) (st : CacheState α)
    (now : Nat) (url : String) (opts : CacheOptions) :
    ((CacheService.getStaleData flt st now url opts).2).metrics.invalidations =
      st.metrics.invalidations ∧
    ((CacheService.getStaleData flt st now url opts).2).store = st.store := by
  simp only [CacheService.getStaleData]
  split
  · simp [logAct]
  · split
    · simp
    · split <;> simp [logAct]

theorem createEmergencyFallback_preserves {α : Type} (st : CacheState α)
    (now : Nat) (url : String) (opts : CacheOptions) :
    ((CacheService.createEmergencyFallback st now url opts).2).metrics.invalidations =
      st.metrics.invalidations ∧
    ((CacheService.createEmergencyFallback st now url opts).2).store = st.store := by
  simp only [CacheService.createEmergencyFallback]
  split
  · simp
  · simp [logAct, bumpEmergencyFallbacks]

theorem set_preserves_invalidations {α : Type} (flt : CacheFaults) (st : CacheState α)
    (now : Nat) (url : String) (data : α) (opts : CacheOptions) :
    ((CacheService.set flt st now url data opts).2).metrics.invalidations =
      st.metrics.invalidations := by
  simp only [CacheService.set]
  split <;> simp [logAct, bumpErrors]

def c3opts : CacheOptions := { forceRefresh := true, fallbackStrategy := some .throwStrategy }

def c3key : String := CacheService.generateCacheKey 0 "u" c3opts

def c3st : CacheState Nat := { store := [(c3key, ⟨5, 0, 300⟩)] }

/-- C3 counterexample: a force-refresh request through `fetchWithFallback`
skips the cache read and performs the fetch, but the existing entry for the
derived key is NOT deleted and no invalidation is counted (the
delete-and-count behaviour lives in `CacheService.get`, which
`fetchWithFallback` never calls when bypassing). -/
theorem C3_counterexample :
    CacheService.shouldBypassCache c3opts = true ∧
    (CacheService.fetchWithFallback noFaults (fun _ => (0 : Nat)) c3st 0 "u"
      (.error "down") c3opts).2.2 = true ∧
    (CacheService.fetchWithFallback noFaults (fun _ => (0 : Nat)) c3st 0 "u"
      (.error "down") c3opts).1 = .error "down" ∧
    storeGet ((CacheService.fetchWithFallback noFaults (fun _ => (0 : Nat)) c3st 0 "u"
      (.error "down") c3opts).2.1).store c3key = some ⟨5, 0, 300⟩ ∧
    ((CacheService.fetchWithFallback noFaults (fun _ => (0 : Nat)) c3st 0 "u"
      (.error "down") c3opts).2.1).metrics.invalidations = 0 := by
  with_unfolding_all decide

set_option maxHeartbeats 1000000 in
/-- C3 (amended): when `fetchWithFallback` is invoked with force-refresh or
cache-busting headers, the cache read is skipped and the fetch function is
invoked, but no cache entry is deleted and no invalidation is counted: on a
successful fetch the result is `fresh` (the entry is overwritten by `set`),
and on a failed fetch with strategy `throw` the error propagates with the
store unchanged. -/
theorem C3_bypass_skips_cache {α : Type} (flt : CacheFaults) (ec : EmergencyPayload → α)
    (st : CacheState α) (now : Nat) (url : String) (fr : Except String α)
    (opts : CacheOptions) (hbp : CacheService.shouldBypassCache opts = true) :
    (CacheService.fetchWithFallback flt ec st now url fr opts).2.2 = true ∧
    ((CacheService.fetchWithFallback flt ec st now url fr opts).2.1).metrics.invalidations =
      st.metrics.invalidations ∧
    (∀ v, fr = .ok v → (CacheService.fetchWithFallback flt ec st now url fr opts).1 =
      .ok { data := v, source := .fresh }) ∧
    (∀ e, fr = .error e → opts.fallbackStrategy = some .throwStrategy →
      (CacheService.fetchWithFallback flt ec st now url fr opts).1 = .error e ∧
      ((CacheService.fetchWithFallback flt ec st now url fr opts).2.1).store = st.store) := by
  rcases fr with e | v
  · rcases hsf : opts.fallbackStrategy with _ | sf
    · simp only [CacheService.fetchWithFallback, hbp, if_true, hsf]
      rcases hgs : CacheService.getStaleData flt st now url opts with ⟨r, st'⟩
      have hpres := getStaleData_preserves flt st now url opts
      rw [hgs] at hpres
      rcases r with _ | ⟨d, age⟩
      · have hpe := createEmergencyFallback_preserves st' now url opts
        rcases hce : CacheService.createEmergencyFallback st' now url opts with ⟨rc, st''⟩
        rw [hce] at hpe
        rcases rc with _ | p <;>
          simp_all [logAct, bumpEmergencyFallbacks]
      · simp_all [bumpFallbackHits]
    · cases sf
      case ignore =>
        simp only [CacheService.fetchWithFallback, hbp, if_true, hsf]
        rcases hgs : CacheService.getStaleData flt st now url
            { opts with maxStaleAge := some 86400 } with ⟨r, st'⟩
        have hpres := getStaleData_preserves flt st now url
          { opts with maxStaleAge := some 86400 }
        rw [hgs] at hpres
        rcases r with _ | ⟨d, age⟩ <;> simp_all [logAct, bumpFallbackHits]
      case stale =>
        simp only [CacheService.fetchWithFallback, hbp, if_true, hsf]
        rcases hgs : CacheService.getStaleData flt st now url opts with ⟨r, st'⟩
        have hpres := getStaleData_preserves flt st now url opts
        rw [hgs] at hpres
        rcases r with _ | ⟨d, age⟩
        · have hpe := createEmergencyFallback_preserves st' now url opts
          rcases hce : CacheService.createEmergencyFallback st' now url opts with ⟨rc, st''⟩
          rw [hce] at hpe
          rcases rc with _ | p <;>
            simp_all [logAct, bumpEmergencyFallbacks]
        · simp_all [bumpFallbackHits]
      case emergency =>
        simp only [CacheService.fetchWithFallback, hbp, if_true, hsf]
        have hpe := createEmergencyFallback_preserves st now url opts
        rcases hce : CacheService.createEmergencyFallback st now url opts with ⟨rc, st''⟩
        rw [hce] at hpe
        rcases rc with _ | p <;> simp_all [logAct, bumpEmergencyFallbacks]
      case throwStrategy =>
        simp_all [CacheService.fetchWithFallback, hbp, hsf, logAct]
  · refine ⟨?_, ?_, ?_, ?_⟩
    · simp only [CacheService.fetchWithFallback, hbp, if_true]
    · simp only [CacheService.fetchWithFallback, hbp, if_true]
      exact set_preserves_invalidations flt st now url v opts
    · intro v' hv
      injection hv with hv
      subst hv
      simp only [CacheService.fetchWithFallback, hbp, if_true]
    · intro e he
      exact absurd he (by simp)

/-- Witness for C3 at a concrete force-refresh request with a successful
fetch. -/
theorem C3_bypass_skips_cache_witness :
    (CacheService.fetchWithFallback noFaults (fun _ => (0 : Nat)) c3st 0 "u"
      (.ok 9) c3opts).2.2 = true ∧
    ((CacheService.fetchWithFallback noFaults (fun _ => (0 : Nat)) c3st 0 "u"
      (.ok 9) c3opts).2.1).metrics.invalidations = 0 ∧
    (CacheService.fetchWithFallback noFaults (fun _ => (0 : Nat)) c3st 0 "u"
      (.ok 9) c3opts).1 = .ok { data := 9, source := .fresh } := by
  have h := C3_bypass_skips_cache noFaults (fun _ => (0 : Nat)) c3st 0 "u"
    (.ok 9) c3opts (by decide)
  refine ⟨h.1, ?_, h.2.2.1 9 rfl⟩
  rw [h.2.1]
  rfl

def c1opts : CacheOptions :=
  { toolType := some "water-level", dataType := some "current",
    timeWindow := some 14, ttl := some 840, fallbackStrategy := some .stale }

def c1key : String := CacheService.generateCacheKey 1760143800000 "current-water-level" c1opts

def c1st : CacheState Nat := { store := [(c1key, ⟨7, 1760140800000, 840⟩)] }

set_option maxRecDepth 10000 in
/-- C1: the stale fallback tier never returns the cached payload.  At the
failing input (entry cached 2025-10-11T00:00Z with ttl 840 s, read 3000 s
later — within the default 3600 s `maxStaleAge` — with an always-failing
fetch and strategy `stale`), `fetchWithFallback` propagates the fetch error
instead of returning `source: stale` with age 3000: the initial `get`
deletes the TTL-expired entry, and `getStaleData` — evaluated here on the
still-intact store — rejects the entry anyway because
`parseInt(X-Cached-At)` reads the ISO string's year (2025), making the
computed age about 1.76e9 seconds. -/
theorem C1_stale_fallback_never_fires :
    (CacheService.fetchWithFallback noFaults (fun _ => (0 : Nat)) c1st 1760143800000
      "current-water-level" (.error "boom") c1opts).1 = .error "boom" ∧
    (CacheService.getStaleData noFaults c1st 1760143800000 "current-water-level" c1opts).1 =
      none ∧
    ((1760143800000 : ℚ) - (1760140800000 : ℚ)) / 1000 = 3000 ∧
    ((3000 : ℚ) ≤ (jsOrNat c1opts.maxStaleAge 3600 : ℚ)) ∧
    yearOf 1760140800000 = 2025 := by
  refine ⟨?_, ?_, ?_, ?_, ?_⟩
  · with_unfolding_all decide
  · with_unfolding_all decide
  · norm_num
  · with_unfolding_all decide
  · with_unfolding_all decide

def c9opts : CacheOptions :=
  { toolType := some "water-level", dataType := some "current",
    timeWindow := some (1 / 2 : ℚ) }

set_option maxRecDepth 10000 in
/-- C9 counterexample: with bucket width 0.5 minutes, the instants 29999 ms
and 30000 ms lie on opposite sides of the bucket boundary at 30000 ms
(floor indices 0 and 1) yet produce byte-identical cache keys, because the
bucket timestamp is rendered only to the minute. -/
theorem C9_counterexample :
    Rat.floor ((29999 : ℚ) / ((1 / 2 : ℚ) * 60 * 1000)) ≠
      Rat.floor ((30000 : ℚ) / ((1 / 2 : ℚ) * 60 * 1000)) ∧
    CacheService.generateCacheKey 29999 "u" c9opts =
      CacheService.generateCacheKey 30000 "u" c9opts := by
  with_unfolding_all decide

/-- C9 (amended): for integer bucket widths of at least one minute and
invocation instants before year 10000 (the range `toISOString` renders with
a four-digit year), two calls with identical inputs inside the same bucket
window produce byte-identical keys, and two calls in different bucket
windows — in particular on opposite sides of a bucket boundary — produce
different keys.  For sub-minute fractional widths the original claim fails
(see the counterexample). -/
theorem C9_key_determinism (opts : CacheOptions) (w : Nat) (url : String) (n₁ n₂ : Nat)
    (hw : 1 ≤ w) (htw : opts.timeWindow = some (w : ℚ))
    (hb₁ : n₁ < 253402300800000) (hb₂ : n₂ < 253402300800000) :
    (n₁ / (w * 60000) = n₂ / (w * 60000) →
      CacheService.generateCacheKey n₁ url opts = CacheService.generateCacheKey n₂ url opts) ∧
    (n₁ / (w * 60000) ≠ n₂ / (w * 60000) →
      CacheService.generateCacheKey n₁ url opts ≠ CacheService.generateCacheKey n₂ url opts) :=
  generateCacheKey_window opts w hw htw url n₁ n₂ hb₁ hb₂

def c9wopts : CacheOptions := { timeWindow := some ((14 : ℕ) : ℚ) }

/-- Witness for C9 with the 14-minute window: instants 0 and 59999 share a
bucket and get the same key; instant 840000 is in the next bucket and gets
a different key. -/
theorem C9_key_determinism_witness :
    CacheService.generateCacheKey 0 "u" c9wopts =
      CacheService.generateCacheKey 59999 "u" c9wopts ∧
    CacheService.generateCacheKey 0 "u" c9wopts ≠
      CacheService.generateCacheKey 840000 "u" c9wopts := by
  have h1 := C9_key_determinism c9wopts 14 "u" 0 59999 (by decide) rfl
    (by decide) (by decide)
  have h2 := C9_key_determinism c9wopts 14 "u" 0 840000 (by decide) rfl
    (by decide) (by decide)
  exact ⟨h1.1 (by decide), h2.2 (by decide)⟩
